import Mathlib

/-!
# Quorum check for replica-set configuration changes

A shallow embedding of the `QuorumChecker` scatter-gather algorithm from
`src/mongo/db/repl/check_quorum_for_config_change.cpp`, together with
theorems about its finalization priority, sufficiency predicate,
response tabulation, veto semantics and request emission.

Machine integers of the source are modelled as `Nat`/`Int` (the counters
only ever increment from small values; configuration versions are compared
as signed integers, so they are `Int`). Host-and-port endpoints are
modelled as strings. The BSON heartbeat payload is modelled as a record of
the fields the checker reads.
-/

/-- Error codes used by the quorum checker (subset of `mongo::ErrorCodes`). -/
inductive ErrorCode where
  | OK
  | CallbackCanceled
  | NodeNotFound
  | NewReplicaSetConfigurationIncompatible
deriving DecidableEq

/-- `mongo::Status`: an error code plus a reason string. -/
structure Status where
  code : ErrorCode
  reason : String
deriving DecidableEq

/-- `Status::OK()`. -/
def Status.theOK : Status := ⟨ErrorCode.OK, ""⟩

/-- `Status::isOK()`. -/
def Status.isOK (s : Status) : Bool :=
  match s.code with
  | ErrorCode.OK => true
  | _ => false

/-- One member of a replica-set configuration: id, endpoint, and the
voter/electability flags read by the checker (`MemberConfig`). -/
structure MemberConfig where
  id : Nat
  host : String
  isVoter : Bool
  isElectable : Bool
deriving DecidableEq

/-- The candidate replica-set configuration (`ReplicaSetConfig`), immutable
during a check: set name, version, ordered member list, heartbeat timeout. -/
structure ReplicaSetConfig where
  replSetName : String
  configVersion : Int
  members : List MemberConfig
  heartbeatTimeoutMillis : Nat
deriving DecidableEq

/-- `ReplicaSetConfig::getNumMembers()`. -/
def ReplicaSetConfig.getNumMembers (c : ReplicaSetConfig) : Nat :=
  c.members.length

/-- `ReplicaSetConfig::getMemberAt(i)`; out-of-range access is modelled by a
default member (all call sites are guarded by `i < getNumMembers()`). -/
def ReplicaSetConfig.getMemberAt (c : ReplicaSetConfig) (i : Nat) : MemberConfig :=
  c.members.getD i ⟨0, "", false, false⟩

/-- Modelled from the spec: `ReplicaSetConfig::getMajorityVoteCount()` is
implemented outside the sources at hand; the spec defines it as
`⌊(number of voters)/2⌋ + 1`. -/
def ReplicaSetConfig.getMajorityVoteCount (c : ReplicaSetConfig) : Nat :=
  c.members.countP (fun m => m.isVoter) / 2 + 1

/-- The heartbeat request payload built by `getRequests`
(`ReplSetHeartbeatArgs`, modelled as the record of fields that are set). -/
structure ReplSetHeartbeatArgs where
  setName : String
  protocolVersion : Int
  configVersion : Int
  checkEmpty : Bool
  senderHost : String
  senderId : Nat
deriving DecidableEq

/-- `ReplicationExecutor::RemoteCommandRequest` as used here: a target
endpoint, database name, heartbeat payload and timeout. -/
structure RemoteCommandRequest where
  target : String
  dbname : String
  cmdObj : ReplSetHeartbeatArgs
  timeoutMillis : Nat
deriving DecidableEq

/-- The fields of a structured heartbeat response that the checker reads
from the BSON payload: `ok`, `mismatch`, `set` and `v` (absent boolean
fields read as `false` via `trueValue()`, absent `set` as `""`). -/
structure HeartbeatResponseData where
  ok : Bool
  mismatch : Bool
  set : String
  v : Int
deriving DecidableEq

/-- A `ResponseStatus`: either a transport-level failure (timeout,
connection error, ...) or a structured payload. -/
inductive ResponseStatus where
  | failure
  | success (data : HeartbeatResponseData)
deriving DecidableEq

/-- The mutable state of `QuorumChecker`, together with the borrowed
configuration and self index. `sawInvariantViolation` records whether the
`invariant(false)` line at the end of `_tabulateHeartbeatResponse` was
reached (the C++ would abort the process there). -/
structure QuorumChecker where
  rsConfig : ReplicaSetConfig
  myIndex : Nat
  down : List String
  voters : List String
  numResponses : Nat
  numElectable : Nat
  vetoStatus : Status
  finalStatus : Status
  sawInvariantViolation : Bool
deriving DecidableEq

/-- `QuorumChecker::hasReceivedSufficientResponses()`. -/
def QuorumChecker.hasReceivedSufficientResponses (qc : QuorumChecker) : Bool :=
  if !qc.vetoStatus.isOK || qc.numResponses == qc.rsConfig.getNumMembers then
    -- Vetoed or everybody has responded.  All done.
    true
  else if qc.rsConfig.configVersion == 1 then
    -- Have not received responses from every member, and the proposed config
    -- version is 1 (initial configuration).  Keep waiting.
    false
  else if qc.numElectable == 0 then
    -- Have not heard from at least one electable node.  Keep waiting.
    false
  else if qc.voters.length < qc.rsConfig.getMajorityVoteCount then
    -- Have not heard from a majority of voters.  Keep waiting.
    false
  else
    true

/-- The string built by the `str::stream` loops of `_onQuorumCheckComplete`:
the first endpoint, then `", " ++ endpoint` for each later one. -/
def joinHostList : List String → String
  | [] => ""
  | h :: t => t.foldl (fun acc x => acc ++ ", " ++ x) h

/-- `QuorumChecker::_onQuorumCheckComplete()`: computes the final status
from the tabulated state, by the priority written in the source. -/
def QuorumChecker.onQuorumCheckComplete (qc : QuorumChecker) : QuorumChecker :=
  if !qc.vetoStatus.isOK then
    { qc with finalStatus := qc.vetoStatus }
  else if qc.rsConfig.configVersion = 1 ∧ qc.down ≠ [] then
    { qc with finalStatus :=
        ⟨ErrorCode.NodeNotFound,
         "Could not contact the following nodes during replica set initiation: " ++
           joinHostList qc.down⟩ }
  else if qc.numElectable = 0 then
    { qc with finalStatus :=
        ⟨ErrorCode.NodeNotFound,
         "Quorum check failed because no electable nodes responded; " ++
           "at least one required for config"⟩ }
  else if qc.voters.length < qc.rsConfig.getMajorityVoteCount then
    { qc with finalStatus :=
        ⟨ErrorCode.NodeNotFound,
         "Quorum check failed because not enough voting nodes responded; required " ++
           toString qc.rsConfig.getMajorityVoteCount ++ " but " ++
           (if qc.voters.length = 0 then
              "none responded"
            else
              "only the following " ++ toString qc.voters.length ++
                " voting nodes responded: " ++ joinHostList qc.voters)⟩ }
  else
    { qc with finalStatus := Status.theOK }

/-- `QuorumChecker::_tabulateHeartbeatResponse(request, response)`. -/
def QuorumChecker.tabulateHeartbeatResponse (qc : QuorumChecker)
    (request : RemoteCommandRequest) (response : ResponseStatus) : QuorumChecker :=
  let qc := { qc with numResponses := qc.numResponses + 1 }
  match response with
  | ResponseStatus.failure =>
    { qc with down := qc.down ++ [request.target] }
  | ResponseStatus.success res =>
    if res.mismatch then
      { qc with vetoStatus :=
          ⟨ErrorCode.NewReplicaSetConfigurationIncompatible,
           "Our set name did not match that of " ++ request.target⟩ }
    else if res.set ≠ "" ∧ res.v ≥ qc.rsConfig.configVersion then
      { qc with vetoStatus :=
          ⟨ErrorCode.NewReplicaSetConfigurationIncompatible,
           "Our config version of " ++ toString qc.rsConfig.configVersion ++
             " is no larger than the version on " ++ request.target ++
             ", which is " ++ toString res.v⟩ }
    else if !res.ok then
      { qc with down := qc.down ++ [request.target] }
    else
      -- The for loop over members with early return is a first-match search.
      match qc.rsConfig.members.find? (fun m => m.host == request.target) with
      | some memberConfig =>
        { qc with
            numElectable := qc.numElectable + (if memberConfig.isElectable then 1 else 0),
            voters := qc.voters ++ (if memberConfig.isVoter then [request.target] else []) }
      | none =>
        -- invariant(false)
        { qc with sawInvariantViolation := true }

/-- `QuorumChecker::processResponse(request, response)`. -/
def QuorumChecker.processResponse (qc : QuorumChecker)
    (request : RemoteCommandRequest) (response : ResponseStatus) : QuorumChecker :=
  let qc := qc.tabulateHeartbeatResponse request response
  if qc.hasReceivedSufficientResponses then qc.onQuorumCheckComplete else qc

/-- The `QuorumChecker` constructor: pre-credits self and finalizes
immediately when sufficiency already holds. -/
def QuorumChecker.init (rsConfig : ReplicaSetConfig) (myIndex : Nat) : QuorumChecker :=
  let myConfig := rsConfig.getMemberAt myIndex
  let qc : QuorumChecker :=
    { rsConfig := rsConfig
      myIndex := myIndex
      down := []
      voters := if myConfig.isVoter then [myConfig.host] else []
      numResponses := 1  -- We "responded" to ourself already.
      numElectable := if myConfig.isElectable then 1 else 0
      vetoStatus := Status.theOK
      finalStatus := ⟨ErrorCode.CallbackCanceled, "Quorum check canceled"⟩
      sawInvariantViolation := false }
  if qc.hasReceivedSufficientResponses then qc.onQuorumCheckComplete else qc

/-- `QuorumChecker::getRequests()`: one heartbeat request per non-self
member, mirroring the indexed for loop over the member list. -/
def QuorumChecker.getRequests (qc : QuorumChecker) : List RemoteCommandRequest :=
  if qc.hasReceivedSufficientResponses then
    []
  else
    let isInitialConfig := qc.rsConfig.configVersion = 1
    let myConfig := qc.rsConfig.getMemberAt qc.myIndex
    let hbArgs : ReplSetHeartbeatArgs :=
      { setName := qc.rsConfig.replSetName
        protocolVersion := 1
        configVersion := qc.rsConfig.configVersion
        checkEmpty := isInitialConfig
        senderHost := myConfig.host
        senderId := myConfig.id }
    qc.rsConfig.members.enum.filterMap (fun p =>
      if p.1 = qc.myIndex then
        none
      else
        some { target := p.2.host
               dbname := "admin"
               cmdObj := hbArgs
               timeoutMillis := qc.rsConfig.heartbeatTimeoutMillis })

/-- Processing a whole list of (request, response) pairs unconditionally:
every listed response is tabulated (this is what "processed responses"
means — each of these pairs went through `processResponse`). -/
def QuorumChecker.processAll (qc : QuorumChecker)
    (rs : List (RemoteCommandRequest × ResponseStatus)) : QuorumChecker :=
  rs.foldl (fun q r => q.processResponse r.1 r.2) qc

/-- Processing under the scatter-gather runner contract: the runner checks
sufficiency before dispatching each further response and stops on the
first `true`, so no response is processed once sufficiency holds. -/
def QuorumChecker.processAllContract (qc : QuorumChecker) :
    List (RemoteCommandRequest × ResponseStatus) → QuorumChecker
  | [] => qc
  | r :: rest =>
    if qc.hasReceivedSufficientResponses then qc
    else (qc.processResponse r.1 r.2).processAllContract rest

/-- The finalization priority as the spec states it: veto first, then the
initiate/down rule with a message listing every downed endpoint in recorded
order, then electability, then voter majority, else OK. -/
def finalStatusSpec (qc : QuorumChecker) : Status :=
  if !qc.vetoStatus.isOK then
    qc.vetoStatus
  else if qc.rsConfig.configVersion = 1 ∧ qc.down ≠ [] then
    ⟨ErrorCode.NodeNotFound,
     "Could not contact the following nodes during replica set initiation: " ++
       String.intercalate ", " qc.down⟩
  else if qc.numElectable = 0 then
    ⟨ErrorCode.NodeNotFound,
     "Quorum check failed because no electable nodes responded; " ++
       "at least one required for config"⟩
  else if qc.voters.length < qc.rsConfig.getMajorityVoteCount then
    ⟨ErrorCode.NodeNotFound,
     "Quorum check failed because not enough voting nodes responded; required " ++
       toString qc.rsConfig.getMajorityVoteCount ++ " but " ++
       (if qc.voters.length = 0 then
          "none responded"
        else
          "only the following " ++ toString qc.voters.length ++
            " voting nodes responded: " ++ String.intercalate ", " qc.voters)⟩
  else
    Status.theOK

/-- A response that the spec says must veto a check of the given candidate
version: a structured payload with `mismatch = true`, or with a non-empty
`set` and an installed version at least the candidate version. -/
def vetoTrigger (version : Int) (r : RemoteCommandRequest × ResponseStatus) : Prop :=
  ∃ d, r.2 = ResponseStatus.success d ∧
    (d.mismatch = true ∨ (d.set ≠ "" ∧ version ≤ d.v))

/-- The request list as the spec states it: exactly one request per
non-self member, in member-list order, addressed to that member's endpoint
with the configured heartbeat timeout and the heartbeat payload (with
`checkEmpty` true iff the candidate version equals 1). -/
def specHeartbeatRequests (qc : QuorumChecker) : List RemoteCommandRequest :=
  (qc.rsConfig.members.enum.filter (fun p => p.1 ≠ qc.myIndex)).map (fun p =>
    { target := p.2.host
      dbname := "admin"
      cmdObj :=
        { setName := qc.rsConfig.replSetName
          protocolVersion := 1
          configVersion := qc.rsConfig.configVersion
          checkEmpty := decide (qc.rsConfig.configVersion = 1)
          senderHost := (qc.rsConfig.getMemberAt qc.myIndex).host
          senderId := (qc.rsConfig.getMemberAt qc.myIndex).id }
      timeoutMillis := qc.rsConfig.heartbeatTimeoutMillis })

/-- A heartbeat payload used to build concrete requests in examples. -/
def dummyHbArgs : ReplSetHeartbeatArgs := ⟨"rs0", 1, 1, true, "h0", 1⟩

/-- A concrete request to the given endpoint. -/
def reqTo (h : String) : RemoteCommandRequest := ⟨h, "admin", dummyHbArgs, 10000⟩

/-- A concrete accepted response (no installed config on the remote). -/
def respOk : ResponseStatus := ResponseStatus.success ⟨true, false, "", 0⟩

/-- A concrete set-name-mismatch response. -/
def respMismatch : ResponseStatus := ResponseStatus.success ⟨true, true, "", 0⟩

/-- Single-member initial config, member voting and electable. -/
def cfgSingle : ReplicaSetConfig := ⟨"rs0", 1, [⟨1, "h1", true, true⟩], 10000⟩

/-- Single-member initial config whose sole member is not electable. -/
def cfgSingleNoElect : ReplicaSetConfig := ⟨"rs0", 1, [⟨1, "h1", true, false⟩], 10000⟩

/-- Single-member initial config whose sole member is not a voter. -/
def cfgSingleNoVote : ReplicaSetConfig := ⟨"rs0", 1, [⟨1, "h1", false, true⟩], 10000⟩

/-- Two-member initial config (version 1), self at index 0. -/
def cfgTwoInit : ReplicaSetConfig :=
  ⟨"rs0", 1, [⟨1, "h0", true, true⟩, ⟨2, "h1", true, true⟩], 10000⟩

/-- Three-member reconfig config (version 3), self at index 0. -/
def cfgThree : ReplicaSetConfig :=
  ⟨"rs0", 3, [⟨1, "h0", true, true⟩, ⟨2, "h1", true, true⟩, ⟨3, "h2", true, true⟩], 10000⟩


theorem intercalateGo_eq_foldl (l : List String) (s : String) :
    ∀ acc : String, String.intercalate.go acc s l =
      l.foldl (fun a x => a ++ s ++ x) acc := by
  induction l with
  | nil => intro acc; rfl
  | cons h t ih => intro acc; simp only [String.intercalate.go, List.foldl_cons]; exact ih _

theorem joinHostList_eq (l : List String) :
    joinHostList l = String.intercalate ", " l := by
  cases l with
  | nil => rfl
  | cons h t =>
    simp only [joinHostList, String.intercalate]
    exact (intercalateGo_eq_foldl t ", " h).symm

theorem onQuorumCheckComplete_spec (qc : QuorumChecker) :
    qc.onQuorumCheckComplete = { qc with finalStatus := finalStatusSpec qc } := by
  unfold QuorumChecker.onQuorumCheckComplete finalStatusSpec
  simp only [joinHostList_eq]
  split_ifs <;> rfl

theorem tabulate_preserves (qc : QuorumChecker) (req : RemoteCommandRequest)
    (resp : ResponseStatus) :
    (qc.tabulateHeartbeatResponse req resp).rsConfig = qc.rsConfig ∧
    (qc.tabulateHeartbeatResponse req resp).finalStatus = qc.finalStatus ∧
    (qc.tabulateHeartbeatResponse req resp).myIndex = qc.myIndex := by
  unfold QuorumChecker.tabulateHeartbeatResponse
  cases resp with
  | failure => exact ⟨rfl, rfl, rfl⟩
  | success res =>
    dsimp only
    split_ifs <;>
      first
        | exact ⟨rfl, rfl, rfl⟩
        | cases qc.rsConfig.members.find? (fun m => m.host == req.target) <;>
            exact ⟨rfl, rfl, rfl⟩

theorem hasSufficient_onComplete (qc : QuorumChecker) :
    (qc.onQuorumCheckComplete).hasReceivedSufficientResponses =
      qc.hasReceivedSufficientResponses := by
  rw [onQuorumCheckComplete_spec]
  rfl

theorem onComplete_preserves (qc : QuorumChecker) :
    (qc.onQuorumCheckComplete).rsConfig = qc.rsConfig ∧
    (qc.onQuorumCheckComplete).vetoStatus = qc.vetoStatus ∧
    (qc.onQuorumCheckComplete).voters = qc.voters := by
  rw [onQuorumCheckComplete_spec]
  exact ⟨rfl, rfl, rfl⟩

theorem isOK_false_of_incompatible (s : Status)
    (h : s.code = ErrorCode.NewReplicaSetConfigurationIncompatible) :
    s.isOK = false := by
  unfold Status.isOK
  rw [h]

theorem sufficient_of_veto (qc : QuorumChecker) (h : qc.vetoStatus.isOK = false) :
    qc.hasReceivedSufficientResponses = true := by
  unfold QuorumChecker.hasReceivedSufficientResponses
  simp [h]

theorem tabulate_veto_cases (qc : QuorumChecker) (req : RemoteCommandRequest)
    (resp : ResponseStatus) :
    (qc.tabulateHeartbeatResponse req resp).vetoStatus = qc.vetoStatus ∨
    (qc.tabulateHeartbeatResponse req resp).vetoStatus.code =
      ErrorCode.NewReplicaSetConfigurationIncompatible := by
  unfold QuorumChecker.tabulateHeartbeatResponse
  cases resp with
  | failure => exact Or.inl rfl
  | success res =>
    dsimp only
    split_ifs
    · exact Or.inr rfl
    · exact Or.inr rfl
    · exact Or.inl rfl
    · cases qc.rsConfig.members.find? (fun m => m.host == req.target) <;> exact Or.inl rfl

theorem vetoTrigger_tabulate (qc : QuorumChecker) (req : RemoteCommandRequest)
    (resp : ResponseStatus)
    (h : vetoTrigger qc.rsConfig.configVersion (req, resp)) :
    (qc.tabulateHeartbeatResponse req resp).vetoStatus.code =
      ErrorCode.NewReplicaSetConfigurationIncompatible := by
  obtain ⟨d, hd, hcase⟩ := h
  cases hd
  unfold QuorumChecker.tabulateHeartbeatResponse
  dsimp only
  by_cases hm : d.mismatch
  · simp [hm]
  · have hset : d.set ≠ "" ∧ d.v ≥ qc.rsConfig.configVersion := by
      rcases hcase with hmm | hsv
      · exact absurd hmm (by simpa using hm)
      · exact ⟨hsv.1, hsv.2⟩
    simp [hm, hset]

theorem processResponse_preserves_rsConfig (qc : QuorumChecker)
    (req : RemoteCommandRequest) (resp : ResponseStatus) :
    (qc.processResponse req resp).rsConfig = qc.rsConfig := by
  unfold QuorumChecker.processResponse
  dsimp only
  split_ifs
  · rw [(onComplete_preserves _).1, (tabulate_preserves qc req resp).1]
  · exact (tabulate_preserves qc req resp).1

theorem processResponse_of_tabulated_veto (qc : QuorumChecker)
    (req : RemoteCommandRequest) (resp : ResponseStatus)
    (h : (qc.tabulateHeartbeatResponse req resp).vetoStatus.code =
      ErrorCode.NewReplicaSetConfigurationIncompatible) :
    (qc.processResponse req resp).vetoStatus.code =
      ErrorCode.NewReplicaSetConfigurationIncompatible ∧
    (qc.processResponse req resp).finalStatus.code =
      ErrorCode.NewReplicaSetConfigurationIncompatible := by
  unfold QuorumChecker.processResponse
  dsimp only
  have hOK := isOK_false_of_incompatible _ h
  rw [sufficient_of_veto _ hOK, if_pos rfl, onQuorumCheckComplete_spec]
  refine ⟨h, ?_⟩
  show (finalStatusSpec (qc.tabulateHeartbeatResponse req resp)).code = _
  unfold finalStatusSpec
  rw [hOK]
  simpa using h

theorem processAll_of_incompatible (rs : List (RemoteCommandRequest × ResponseStatus)) :
    ∀ qc : QuorumChecker,
      qc.vetoStatus.code = ErrorCode.NewReplicaSetConfigurationIncompatible →
      qc.finalStatus.code = ErrorCode.NewReplicaSetConfigurationIncompatible →
      (qc.processAll rs).vetoStatus.code =
        ErrorCode.NewReplicaSetConfigurationIncompatible ∧
      (qc.processAll rs).finalStatus.code =
        ErrorCode.NewReplicaSetConfigurationIncompatible := by
  induction rs with
  | nil => exact fun qc hv hf => ⟨hv, hf⟩
  | cons r rest ih =>
    intro qc hv hf
    have hstep :
        (qc.tabulateHeartbeatResponse r.1 r.2).vetoStatus.code =
          ErrorCode.NewReplicaSetConfigurationIncompatible := by
      rcases tabulate_veto_cases qc r.1 r.2 with heq | hI
      · rw [heq]; exact hv
      · exact hI
    have hpr := processResponse_of_tabulated_veto qc r.1 r.2 hstep
    have : qc.processAll (r :: rest) = (qc.processResponse r.1 r.2).processAll rest := rfl
    rw [this]
    exact ih _ hpr.1 hpr.2

theorem processAll_vetoTrigger (rs : List (RemoteCommandRequest × ResponseStatus)) :
    ∀ qc : QuorumChecker,
      (∃ r ∈ rs, vetoTrigger qc.rsConfig.configVersion r) →
      (qc.processAll rs).finalStatus.code =
        ErrorCode.NewReplicaSetConfigurationIncompatible := by
  induction rs with
  | nil => rintro qc ⟨r, hr, -⟩; exact absurd hr (List.not_mem_nil r)
  | cons r rest ih =>
    rintro qc ⟨r2, hr2, htrig⟩
    have hunf : qc.processAll (r :: rest) = (qc.processResponse r.1 r.2).processAll rest := rfl
    rw [hunf]
    rcases List.mem_cons.mp hr2 with heq | hmem
    · subst heq
      have hstep := vetoTrigger_tabulate qc r2.1 r2.2 htrig
      have hpr := processResponse_of_tabulated_veto qc r2.1 r2.2 hstep
      exact (processAll_of_incompatible rest _ hpr.1 hpr.2).2
    · apply ih
      refine ⟨r2, hmem, ?_⟩
      rw [processResponse_preserves_rsConfig]
      exact htrig

theorem processAllContract_of_sufficient (qc : QuorumChecker)
    (rs : List (RemoteCommandRequest × ResponseStatus))
    (h : qc.hasReceivedSufficientResponses = true) :
    qc.processAllContract rs = qc := by
  cases rs with
  | nil => rfl
  | cons r rest => unfold QuorumChecker.processAllContract; rw [if_pos h]

theorem processAllContract_cons (qc : QuorumChecker)
    (r : RemoteCommandRequest × ResponseStatus)
    (rest : List (RemoteCommandRequest × ResponseStatus)) :
    qc.processAllContract (r :: rest) =
      if qc.hasReceivedSufficientResponses then qc
      else (qc.processResponse r.1 r.2).processAllContract rest := rfl

theorem processAllContract_append (rs : List (RemoteCommandRequest × ResponseStatus)) :
    ∀ (qc : QuorumChecker) (rest : List (RemoteCommandRequest × ResponseStatus)),
      qc.processAllContract (rs ++ rest) =
        (qc.processAllContract rs).processAllContract rest := by
  induction rs with
  | nil => intro qc rest; rfl
  | cons r tail ih =>
    intro qc rest
    by_cases h : qc.hasReceivedSufficientResponses
    · rw [List.cons_append, processAllContract_cons, processAllContract_cons,
        if_pos h, if_pos h, processAllContract_of_sufficient qc rest h]
    · rw [List.cons_append, processAllContract_cons, processAllContract_cons,
        if_neg h, if_neg h, ih]

theorem init_rsConfig (c : ReplicaSetConfig) (i : Nat) :
    (QuorumChecker.init c i).rsConfig = c := by
  unfold QuorumChecker.init
  dsimp only
  split_ifs <;> first | rfl | rw [onQuorumCheckComplete_spec]

/-- C1: When sufficiency holds, finalization computes `finalStatus` by the
exact five-step priority of the spec — veto, then version-1 with non-empty
down list (message listing every downed endpoint in recorded order), then
no electable responder, then voter shortfall, else OK — and changes nothing
else in the checker state. -/
theorem quorum_finalization_priority (qc : QuorumChecker) :
    qc.onQuorumCheckComplete = { qc with finalStatus := finalStatusSpec qc } :=
  onQuorumCheckComplete_spec qc

/-- C2: `hasReceivedSufficientResponses` is true iff the veto is set, or
every member has responded, or (version > 1 with at least one electable
responder and a voter majority); in particular a version-1 check with no
veto is not sufficient before every member replied or timed out. -/
theorem sufficiency_predicate_characterization (qc : QuorumChecker)
    (hv : 1 ≤ qc.rsConfig.configVersion) :
    qc.hasReceivedSufficientResponses = true ↔
      (qc.vetoStatus.isOK = false ∨
       qc.numResponses = qc.rsConfig.getNumMembers ∨
       (1 < qc.rsConfig.configVersion ∧ 1 ≤ qc.numElectable ∧
        qc.rsConfig.getMajorityVoteCount ≤ qc.voters.length)) := by
  unfold QuorumChecker.hasReceivedSufficientResponses
  simp only [Bool.or_eq_true, Bool.not_eq_true', beq_iff_eq]
  split_ifs with h1 h2 h3 h4
  · simp only [true_iff]
    rcases h1 with h | h
    · exact Or.inl h
    · exact Or.inr (Or.inl h)
  · simp only [false_iff]
    rintro (h | h | ⟨hgt, -, -⟩)
    · exact (not_or.mp h1).1 h
    · exact (not_or.mp h1).2 h
    · omega
  · simp only [false_iff]
    rintro (h | h | ⟨-, hel, -⟩)
    · exact (not_or.mp h1).1 h
    · exact (not_or.mp h1).2 h
    · omega
  · simp only [false_iff]
    rintro (h | h | ⟨-, -, hvot⟩)
    · exact (not_or.mp h1).1 h
    · exact (not_or.mp h1).2 h
    · omega
  · simp only [true_iff]
    exact Or.inr (Or.inr ⟨by omega, by omega, by omega⟩)

theorem sufficiency_predicate_characterization_witness :
    (QuorumChecker.init cfgSingle 0).hasReceivedSufficientResponses = true :=
  (sufficiency_predicate_characterization (QuorumChecker.init cfgSingle 0)
    (by decide)).mpr (Or.inr (Or.inl (by decide)))

/-- C3: if any processed response carries `mismatch = true`, or a non-empty
`set` with installed version at least the candidate version, the final
status of the check is configuration-incompatible, regardless of the other
responses. -/
theorem veto_response_forces_incompatible (c : ReplicaSetConfig) (i : Nat)
    (rs : List (RemoteCommandRequest × ResponseStatus))
    (h : ∃ r ∈ rs, vetoTrigger c.configVersion r) :
    ((QuorumChecker.init c i).processAll rs).finalStatus.code =
      ErrorCode.NewReplicaSetConfigurationIncompatible := by
  apply processAll_vetoTrigger
  rw [init_rsConfig]
  exact h

theorem veto_response_forces_incompatible_witness :
    ((QuorumChecker.init cfgThree 0).processAll
        [(reqTo "h1", respMismatch)]).finalStatus.code =
      ErrorCode.NewReplicaSetConfigurationIncompatible :=
  veto_response_forces_incompatible cfgThree 0 _
    ⟨(reqTo "h1", respMismatch), List.mem_cons_self _ _,
     ⟨⟨true, true, "", 0⟩, rfl, Or.inl rfl⟩⟩

/-- C4: tabulation increments `numResponses` and then applies exactly one
case, in order: transport failure appends the target to `down`; a mismatch
sets the veto; a non-empty remote `set` with version at least the candidate
sets the veto; `ok = false` appends the target to `down`; otherwise the
member whose endpoint equals the target contributes its electability and
vote — and nothing else in the state changes. -/
theorem tabulation_case_analysis (qc : QuorumChecker) (req : RemoteCommandRequest)
    (resp : ResponseStatus) :
    (resp = ResponseStatus.failure →
      qc.tabulateHeartbeatResponse req resp =
        { qc with numResponses := qc.numResponses + 1,
                  down := qc.down ++ [req.target] }) ∧
    (∀ d, resp = ResponseStatus.success d → d.mismatch = true →
      ∃ s, s.isOK = false ∧
        qc.tabulateHeartbeatResponse req resp =
          { qc with numResponses := qc.numResponses + 1, vetoStatus := s }) ∧
    (∀ d, resp = ResponseStatus.success d → d.mismatch = false →
      d.set ≠ "" → qc.rsConfig.configVersion ≤ d.v →
      ∃ s, s.isOK = false ∧
        qc.tabulateHeartbeatResponse req resp =
          { qc with numResponses := qc.numResponses + 1, vetoStatus := s }) ∧
    (∀ d, resp = ResponseStatus.success d → d.mismatch = false →
      ¬(d.set ≠ "" ∧ qc.rsConfig.configVersion ≤ d.v) → d.ok = false →
      qc.tabulateHeartbeatResponse req resp =
        { qc with numResponses := qc.numResponses + 1,
                  down := qc.down ++ [req.target] }) ∧
    (∀ d m, resp = ResponseStatus.success d → d.mismatch = false →
      ¬(d.set ≠ "" ∧ qc.rsConfig.configVersion ≤ d.v) → d.ok = true →
      qc.rsConfig.members.find? (fun mem => mem.host == req.target) = some m →
      qc.tabulateHeartbeatResponse req resp =
        { qc with numResponses := qc.numResponses + 1,
                  numElectable := qc.numElectable + (if m.isElectable then 1 else 0),
                  voters := qc.voters ++ (if m.isVoter then [req.target] else []) }) := by
  refine ⟨?_, ?_, ?_, ?_, ?_⟩
  · rintro rfl
    rfl
  · rintro d rfl hm
    exact ⟨⟨ErrorCode.NewReplicaSetConfigurationIncompatible,
            "Our set name did not match that of " ++ req.target⟩, rfl,
           by simp [QuorumChecker.tabulateHeartbeatResponse, hm]⟩
  · rintro d rfl hm hs hv2
    have hcond : d.set ≠ "" ∧ d.v ≥ qc.rsConfig.configVersion := ⟨hs, hv2⟩
    exact ⟨⟨ErrorCode.NewReplicaSetConfigurationIncompatible,
            "Our config version of " ++ toString qc.rsConfig.configVersion ++
              " is no larger than the version on " ++ req.target ++
              ", which is " ++ toString d.v⟩, rfl,
           by simp [QuorumChecker.tabulateHeartbeatResponse, hm, hcond]⟩
  · rintro d rfl hm hnset hok
    have hnset2 : ¬(d.set ≠ "" ∧ d.v ≥ qc.rsConfig.configVersion) := by
      rintro ⟨a, b⟩; exact hnset ⟨a, b⟩
    simp [QuorumChecker.tabulateHeartbeatResponse, hm, hnset2, hok]
  · rintro d m rfl hm hnset hok hfind
    have hnset2 : ¬(d.set ≠ "" ∧ d.v ≥ qc.rsConfig.configVersion) := by
      rintro ⟨a, b⟩; exact hnset ⟨a, b⟩
    simp [QuorumChecker.tabulateHeartbeatResponse, hm, hnset2, hok, hfind]

theorem tabulation_case_analysis_witness :
    (QuorumChecker.init cfgThree 0).tabulateHeartbeatResponse (reqTo "h1")
        ResponseStatus.failure =
      { QuorumChecker.init cfgThree 0 with
          numResponses := (QuorumChecker.init cfgThree 0).numResponses + 1,
          down := (QuorumChecker.init cfgThree 0).down ++ ["h1"] } :=
  (tabulation_case_analysis (QuorumChecker.init cfgThree 0) (reqTo "h1")
    ResponseStatus.failure).1 rfl

/-- C5: for a reconfig state (version > 1) with no veto and at least one
electable responder, finalization yields OK exactly when the voter
responses reach `⌊V/2⌋ + 1` (V the number of voters in the candidate
config), and `NodeNotFound` below that; the constructor pre-credits a
voting self into `voters`. -/
theorem reconfig_majority_boundary :
    (∀ qc : QuorumChecker, 1 < qc.rsConfig.configVersion →
      qc.vetoStatus.isOK = true → 1 ≤ qc.numElectable →
      ((qc.onQuorumCheckComplete.finalStatus.code = ErrorCode.OK ↔
          qc.rsConfig.members.countP (fun m => m.isVoter) / 2 + 1 ≤ qc.voters.length) ∧
       (qc.voters.length < qc.rsConfig.getMajorityVoteCount →
          qc.onQuorumCheckComplete.finalStatus.code = ErrorCode.NodeNotFound))) ∧
    (∀ (c : ReplicaSetConfig) (i : Nat), (c.getMemberAt i).isVoter = true →
      (QuorumChecker.init c i).voters = [(c.getMemberAt i).host]) := by
  constructor
  · intro qc hgt hOK hel
    have hveto : ¬((!qc.vetoStatus.isOK) = true) := by rw [hOK]; decide
    have hdown : ¬(qc.rsConfig.configVersion = 1 ∧ qc.down ≠ []) := by
      rintro ⟨h1, -⟩; omega
    have helect : ¬(qc.numElectable = 0) := by omega
    rw [onQuorumCheckComplete_spec]
    dsimp only
    unfold finalStatusSpec ReplicaSetConfig.getMajorityVoteCount
    rw [if_neg hveto, if_neg hdown, if_neg helect]
    by_cases hvote : qc.voters.length <
        qc.rsConfig.members.countP (fun m => m.isVoter) / 2 + 1
    · rw [if_pos hvote]
      dsimp only
      refine ⟨⟨fun habs => absurd habs (by decide),
               fun hge => absurd hge (by omega)⟩, fun _ => rfl⟩
    · rw [if_neg hvote]
      refine ⟨⟨fun _ => by omega, fun _ => rfl⟩, fun hlt => absurd hlt (by omega)⟩
  · intro c i hvoter
    unfold QuorumChecker.init
    dsimp only
    simp only [hvoter, if_true]
    split_ifs <;> first | rfl | rw [(onComplete_preserves _).2.2]

theorem reconfig_majority_boundary_witness :
    ((QuorumChecker.init cfgThree 0).processResponse (reqTo "h1")
        respOk).onQuorumCheckComplete.finalStatus.code = ErrorCode.OK :=
  ((reconfig_majority_boundary.1 _ (by decide) (by decide) (by decide)).1).mpr (by decide)

theorem enum_skip_eq (l : List (Nat × MemberConfig)) (k : Nat)
    (f : Nat × MemberConfig → RemoteCommandRequest) :
    l.filterMap (fun p => if p.1 = k then none else some (f p)) =
      (l.filter (fun p => p.1 ≠ k)).map f := by
  induction l with
  | nil => rfl
  | cons a t ih =>
    by_cases h : a.1 = k
    · simp [h, ih]
    · simp [h, ih]

/-- C6: when the checker is not already sufficient, `getRequests` yields
exactly one request per non-self member, in member order, addressed to the
member's endpoint with the configured heartbeat timeout and a payload
carrying the set name, protocol version 1, the candidate config version,
the sender's endpoint and id, and `checkEmpty` iff the version is 1. -/
theorem request_emission_spec (qc : QuorumChecker)
    (h : qc.hasReceivedSufficientResponses = false) :
    qc.getRequests = specHeartbeatRequests qc := by
  unfold QuorumChecker.getRequests specHeartbeatRequests
  rw [h]
  simp only [Bool.false_eq_true, if_false]
  exact enum_skip_eq _ _ _

theorem request_emission_spec_witness :
    (QuorumChecker.init cfgTwoInit 0).getRequests =
      specHeartbeatRequests (QuorumChecker.init cfgTwoInit 0) :=
  request_emission_spec _ (by decide)

theorem snd_mem_of_enumFrom {α : Type} :
    ∀ (l : List α) (n : Nat) (p : Nat × α), p ∈ l.enumFrom n → p.2 ∈ l := by
  intro l
  induction l with
  | nil => intro n p h; cases h
  | cons a t ih =>
    intro n p h
    rcases List.mem_cons.mp h with rfl | h2
    · exact List.mem_cons_self _ _
    · exact List.mem_cons_of_mem _ (ih (n + 1) p h2)

/-- C7 counterexample: a single-member config (self index 0) whose sole
member is not electable — or not a voter — finalizes at construction with
`NodeNotFound`, not `OK`, so the claim fails as stated over *every*
single-member configuration. -/
theorem single_member_verdict_counterexample :
    (QuorumChecker.init cfgSingleNoElect 0).finalStatus.code = ErrorCode.NodeNotFound ∧
    (QuorumChecker.init cfgSingleNoVote 0).finalStatus.code = ErrorCode.NodeNotFound ∧
    ¬(QuorumChecker.init cfgSingleNoElect 0).finalStatus.code = ErrorCode.OK := by
  decide

/-- C7 amended: every single-member configuration with self index 0 whose
sole member is a voter and electable finalizes at construction with
verdict OK, and `getRequests` issues no remote calls. -/
theorem single_member_amended (c : ReplicaSetConfig)
    (hlen : c.members.length = 1)
    (hv : (c.getMemberAt 0).isVoter = true)
    (he : (c.getMemberAt 0).isElectable = true) :
    (QuorumChecker.init c 0).finalStatus = Status.theOK ∧
    (QuorumChecker.init c 0).getRequests = [] := by
  obtain ⟨name, ver, mems, hb⟩ := c
  cases mems with
  | nil => simp at hlen
  | cons m t =>
    cases t with
    | cons m2 t2 => simp at hlen
    | nil =>
      have hm : (⟨name, ver, [m], hb⟩ : ReplicaSetConfig).getMemberAt 0 = m := rfl
      rw [hm] at hv he
      constructor
      · simp [QuorumChecker.init, QuorumChecker.hasReceivedSufficientResponses,
              QuorumChecker.onQuorumCheckComplete, ReplicaSetConfig.getNumMembers,
              ReplicaSetConfig.getMemberAt, ReplicaSetConfig.getMajorityVoteCount,
              Status.theOK, Status.isOK, hv, he, List.countP_cons]
      · simp [QuorumChecker.init, QuorumChecker.getRequests,
              QuorumChecker.hasReceivedSufficientResponses,
              QuorumChecker.onQuorumCheckComplete, ReplicaSetConfig.getNumMembers,
              ReplicaSetConfig.getMemberAt, ReplicaSetConfig.getMajorityVoteCount,
              Status.theOK, Status.isOK, hv, he, List.countP_cons]

theorem single_member_amended_witness :
    (QuorumChecker.init cfgSingle 0).finalStatus = Status.theOK ∧
    (QuorumChecker.init cfgSingle 0).getRequests = [] :=
  single_member_amended cfgSingle rfl rfl rfl

/-- C8 counterexample: with the veto already set (by a mismatch from h1)
and the verdict finalized, a later mismatch response from h2 rewrites the
veto message, and the final `Status` visible to the caller changes — so
the final status is not literally unchanged. -/
theorem veto_verdict_counterexample :
    ((QuorumChecker.init cfgThree 0).processResponse (reqTo "h1")
        respMismatch).vetoStatus.isOK = false ∧
    ¬((((QuorumChecker.init cfgThree 0).processResponse (reqTo "h1")
          respMismatch).processResponse (reqTo "h2") respMismatch).finalStatus =
        ((QuorumChecker.init cfgThree 0).processResponse (reqTo "h1")
          respMismatch).finalStatus) := by
  decide

/-- C8 amended: once the veto is set (and finalized), later responses can
rewrite the veto message but never the verdict's error code: the final
status stays configuration-incompatible after any further responses. -/
theorem veto_error_code_stable (qc : QuorumChecker)
    (rs : List (RemoteCommandRequest × ResponseStatus))
    (hv : qc.vetoStatus.code = ErrorCode.NewReplicaSetConfigurationIncompatible)
    (hf : qc.finalStatus.code = ErrorCode.NewReplicaSetConfigurationIncompatible) :
    (qc.processAll rs).finalStatus.code =
      ErrorCode.NewReplicaSetConfigurationIncompatible :=
  (processAll_of_incompatible rs qc hv hf).2

theorem veto_error_code_stable_witness :
    (((QuorumChecker.init cfgThree 0).processResponse (reqTo "h1")
        respMismatch).processAll [(reqTo "h2", respOk)]).finalStatus.code =
      ErrorCode.NewReplicaSetConfigurationIncompatible :=
  veto_error_code_stable _ _ (by decide) (by decide)

/-- C9 counterexample: in a two-member version-1 check, after the peer
times out, sufficiency holds (everyone responded); processing one more
response bumps `numResponses` past the member count and the sufficiency
predicate returns false again — so it is not monotone under arbitrary
further `processResponse` calls. -/
theorem sufficiency_not_monotone_counterexample :
    ((QuorumChecker.init cfgTwoInit 0).processResponse (reqTo "h1")
        ResponseStatus.failure).hasReceivedSufficientResponses = true ∧
    (((QuorumChecker.init cfgTwoInit 0).processResponse (reqTo "h1")
        ResponseStatus.failure).processResponse (reqTo "h1")
        ResponseStatus.failure).hasReceivedSufficientResponses = false := by
  decide

/-- C9 amended: under the runner contract — no response is processed once
sufficiency holds — the sufficiency predicate is monotone (the state, and
with it the predicate, freezes at the first true) and `finalStatus` is
written exactly once, at the step where sufficiency first holds: steps
that end insufficient leave `finalStatus` untouched. -/
theorem sufficiency_monotone_under_contract :
    (∀ (qc : QuorumChecker) (rs rest : List (RemoteCommandRequest × ResponseStatus)),
      (qc.processAllContract rs).hasReceivedSufficientResponses = true →
      qc.processAllContract (rs ++ rest) = qc.processAllContract rs) ∧
    (∀ (qc : QuorumChecker) (req : RemoteCommandRequest) (resp : ResponseStatus),
      (qc.processResponse req resp).hasReceivedSufficientResponses = false →
      (qc.processResponse req resp).finalStatus = qc.finalStatus) := by
  constructor
  · intro qc rs rest h
    rw [processAllContract_append, processAllContract_of_sufficient _ rest h]
  · intro qc req resp h
    have hts : (qc.tabulateHeartbeatResponse req resp).hasReceivedSufficientResponses
        = false := by
      by_contra hc
      rw [Bool.not_eq_false] at hc
      unfold QuorumChecker.processResponse at h
      dsimp only at h
      rw [if_pos hc, hasSufficient_onComplete, hc] at h
      exact absurd h (by decide)
    unfold QuorumChecker.processResponse
    dsimp only
    rw [if_neg (by simp [hts])]
    exact (tabulate_preserves qc req resp).2.1

theorem sufficiency_monotone_under_contract_witness :
    (QuorumChecker.init cfgSingle 0).processAllContract
        ([] ++ [(reqTo "h1", ResponseStatus.failure)]) =
      (QuorumChecker.init cfgSingle 0).processAllContract [] :=
  sufficiency_monotone_under_contract.1 _ [] _ (by decide)

/-- C10: when the request target matches some member's endpoint, the member
lookup in the accepted-response branch of tabulation succeeds and the
`invariant(false)` branch is not reached; every request that `getRequests`
emits has such a target, so under that precondition the branch is
unreachable. -/
theorem member_lookup_total :
    (∀ (qc : QuorumChecker) (req : RemoteCommandRequest) (resp : ResponseStatus),
      qc.sawInvariantViolation = false →
      (∃ m ∈ qc.rsConfig.members, m.host = req.target) →
      (qc.tabulateHeartbeatResponse req resp).sawInvariantViolation = false) ∧
    (∀ (qc : QuorumChecker) (req : RemoteCommandRequest),
      req ∈ qc.getRequests → ∃ m ∈ qc.rsConfig.members, m.host = req.target) := by
  constructor
  · intro qc req resp hflag hmem
    unfold QuorumChecker.tabulateHeartbeatResponse
    cases resp with
    | failure => exact hflag
    | success res =>
      dsimp only
      split_ifs <;> try exact hflag
      cases hfind : qc.rsConfig.members.find? (fun m => m.host == req.target) with
      | some m => exact hflag
      | none =>
        obtain ⟨m, hm, hh⟩ := hmem
        have hnone := List.find?_eq_none.mp hfind m hm
        exact absurd (beq_iff_eq.mpr hh) hnone
  · intro qc req hreq
    unfold QuorumChecker.getRequests at hreq
    by_cases hs : qc.hasReceivedSufficientResponses
    · rw [if_pos hs] at hreq
      exact absurd hreq (List.not_mem_nil _)
    · rw [if_neg hs] at hreq
      dsimp only at hreq
      rw [List.mem_filterMap] at hreq
      obtain ⟨p, hp, heq⟩ := hreq
      by_cases hi : p.1 = qc.myIndex
      · rw [if_pos hi] at heq
        simp at heq
      · rw [if_neg hi] at heq
        have hrec := Option.some.inj heq
        refine ⟨p.2, snd_mem_of_enumFrom _ _ _ hp, ?_⟩
        rw [← hrec]

theorem member_lookup_total_witness :
    ((QuorumChecker.init cfgTwoInit 0).tabulateHeartbeatResponse (reqTo "h1")
        respOk).sawInvariantViolation = false :=
  member_lookup_total.1 _ _ _ (by decide) ⟨⟨2, "h1", true, true⟩, by decide, rfl⟩
